import Mathlib

/-!
# Verification of the starframe-vault program

Shallow embedding of `src/lib.rs`: a program-controlled custody vault with
four instructions (Initialize, Deposit, Withdraw, Close) moving lamports
between the owner's funding account, a custody PDA ("vault"), and the
persisted `VaultState` record account.

Modelling conventions:
* Public keys are abstract identities (`Nat`); the PDA derivation
  `Pubkey::find_program_address(VaultSeeds, ID)` is an opaque deterministic
  function, so each instruction takes it as an explicit parameter
  `derive : Pubkey → Pubkey × Nat` (address and bump).
* Lamport balances are `Nat` (u64 in the source; the system program rejects
  any transfer exceeding the source balance, so no wraparound is reachable).
* Rust `u64::saturating_sub` is `Nat` truncated subtraction.
* Each instruction's `process` returns the post state paired with
  `Option VaultError` (`none` = success), threading state exactly in the
  source's order: every `ensure!` aborts with the state as it stands, and
  each CPI transfer is atomic.
-/

namespace StarframeVault

/-- Abstract 32-byte public key / address identity. -/
abbrev Pubkey := Nat

/-- Error kinds surfaced by the program's `ensure!` checks, named as in the
design spec: `addressMismatch` is the source's "Invalid vault PDA",
`insufficientBalance` covers "Insufficient funds" / "Insufficient vault
balance" and the system program's balance check, `authorization` is
"Incorrect owner". -/
inductive VaultError where
  | addressMismatch
  | insufficientBalance
  | authorization
  deriving DecidableEq, Repr

/-- The persisted vault record (`VaultState` in `src/lib.rs`): owner key and
the two PDA bump seeds. -/
structure VaultState where
  owner : Pubkey
  state_bump : Nat
  vault_bump : Nat
  deriving DecidableEq, Repr

/-- `VaultState::INIT_SPACE = 32 + 1 + 1` from the source. -/
def VaultState.INIT_SPACE : Nat := 32 + 1 + 1

/-- The 32-byte little-endian encoding of a public key. -/
def pubkeyBytes (p : Pubkey) : List Nat :=
  (List.range 32).map (fun i => p / 256 ^ i % 256)

/-- `bytemuck::bytes_of(&vault_state)`: the packed `#[repr(C, packed)]`
layout — 32 owner bytes, then the two bump bytes. -/
def VaultState.toBytes (v : VaultState) : List Nat :=
  pubkeyBytes v.owner ++ [v.state_bump % 256, v.vault_bump % 256]

/-- `AccountValidate<&Pubkey> for VaultState`:
`ensure!(self_ref.owner == *owner, "Incorrect owner")`. -/
def VaultState.validate_account (self_ref : VaultState) (owner : Pubkey) :
    Except VaultError Unit :=
  if self_ref.owner = owner then .ok () else .error .authorization

/-- The accounts every instruction touches: the owner's funding account
("owner"/"user" in the source), the custody PDA ("vault"), and the state
record account (key, rent lamports, raw data bytes). -/
structure Accounts where
  userKey : Pubkey
  userLamports : Nat
  vaultKey : Pubkey
  vaultLamports : Nat
  stateKey : Pubkey
  stateLamports : Nat
  stateData : List Nat
  deriving DecidableEq, Repr

/-- The system program's Transfer: fails when the source balance is below
the amount, otherwise atomically moves `amount` and returns the two new
balances. -/
def systemTransfer (fromLamports toLamports amount : Nat) :
    Except VaultError (Nat × Nat) :=
  if fromLamports < amount then .error .insufficientBalance
  else .ok (fromLamports - amount, toLamports + amount)

/-- `InitializeIx::process`: derive the vault PDA from the state key, check
the supplied vault account matches, CPI-transfer the rent-exempt floor from
the owner to the vault, then write `{owner, state_bump, vault_bump}` into
the record.  `stateBump` is the framework-derived bump of the state PDA
(`a.state.access_seeds().bump`). -/
def InitializeIx.process (derive : Pubkey → Pubkey × Nat)
    (rentExempt stateBump : Nat) (a : Accounts) : Accounts × Option VaultError :=
  let vaultPda := (derive a.stateKey).1
  let vaultBump := (derive a.stateKey).2
  if a.vaultKey ≠ vaultPda then (a, some .addressMismatch)
  else
    match systemTransfer a.userLamports a.vaultLamports rentExempt with
    | .error e => (a, some e)
    | .ok (u, v) =>
      let record : VaultState :=
        { owner := a.userKey, state_bump := stateBump, vault_bump := vaultBump }
      ({ a with userLamports := u, vaultLamports := v,
                stateData := record.toBytes }, none)

/-- `DepositIx::process`: check the vault PDA, check the user balance covers
the amount, then CPI-transfer user → vault. -/
def DepositIx.process (derive : Pubkey → Pubkey × Nat) (amount : Nat)
    (a : Accounts) : Accounts × Option VaultError :=
  if a.vaultKey ≠ (derive a.stateKey).1 then (a, some .addressMismatch)
  else if a.userLamports < amount then (a, some .insufficientBalance)
  else
    match systemTransfer a.userLamports a.vaultLamports amount with
    | .error e => (a, some e)
    | .ok (u, v) => ({ a with userLamports := u, vaultLamports := v }, none)

/-- `WithdrawIx::process`: check the vault PDA, compute
`available = vault_lamports.saturating_sub(rent_exempt)`, require
`available ≥ amount`, then CPI-transfer vault → user signed by the PDA. -/
def WithdrawIx.process (derive : Pubkey → Pubkey × Nat)
    (rentExempt amount : Nat) (a : Accounts) : Accounts × Option VaultError :=
  if a.vaultKey ≠ (derive a.stateKey).1 then (a, some .addressMismatch)
  else
    let available := a.vaultLamports - rentExempt
    if available < amount then (a, some .insufficientBalance)
    else
      match systemTransfer a.vaultLamports a.userLamports amount with
      | .error e => (a, some e)
      | .ok (v, u) => ({ a with vaultLamports := v, userLamports := u }, none)

/-- `CloseIx::process`: check the vault PDA; if the vault holds lamports,
sweep them all to the user via a signed CPI transfer; then, if the state
account holds lamports, move them to the user and zero the record's data
bytes (both guarded by the same `state_lamports > 0` check). -/
def CloseIx.process (derive : Pubkey → Pubkey × Nat) (a : Accounts) :
    Accounts × Option VaultError :=
  if a.vaultKey ≠ (derive a.stateKey).1 then (a, some .addressMismatch)
  else
    match (if 0 < a.vaultLamports then
             systemTransfer a.vaultLamports a.userLamports a.vaultLamports
           else .ok (a.vaultLamports, a.userLamports)) with
    | .error e => (a, some e)
    | .ok (v, u) =>
      let a1 := { a with vaultLamports := v, userLamports := u }
      if 0 < a1.stateLamports then
        ({ a1 with stateLamports := 0,
                   userLamports := a1.userLamports + a1.stateLamports,
                   stateData := a1.stateData.map (fun _ => 0) }, none)
      else (a1, none)

/-- C1: on an initialized vault (custody balance at least the rent floor)
with a correctly derived custody address, Withdraw(amount) succeeds iff
`amount ≤ custody.balance − rentExempt`; on success the custody balance
drops by exactly `amount`, the owner balance rises by exactly `amount`, and
the custody balance stays at or above the floor; on failure nothing
changes. -/
theorem withdraw_correct (derive : Pubkey → Pubkey × Nat)
    (rentExempt amount : Nat) (a : Accounts)
    (haddr : a.vaultKey = (derive a.stateKey).1)
    (hfloor : rentExempt ≤ a.vaultLamports) :
    ((WithdrawIx.process derive rentExempt amount a).2 = none
      ↔ amount ≤ a.vaultLamports - rentExempt)
    ∧ ((WithdrawIx.process derive rentExempt amount a).2 = none →
        (WithdrawIx.process derive rentExempt amount a).1.vaultLamports
            = a.vaultLamports - amount
        ∧ (WithdrawIx.process derive rentExempt amount a).1.userLamports
            = a.userLamports + amount
        ∧ rentExempt ≤ (WithdrawIx.process derive rentExempt amount a).1.vaultLamports)
    ∧ ((WithdrawIx.process derive rentExempt amount a).2 ≠ none →
        (WithdrawIx.process derive rentExempt amount a).1 = a) := by
  have haddr2 : ¬ (a.vaultKey ≠ (derive a.stateKey).1) := by simp [haddr]
  by_cases h : a.vaultLamports - rentExempt < amount
  · simp only [WithdrawIx.process, systemTransfer, if_neg haddr2, if_pos h]
    refine ⟨?_, ?_, ?_⟩ <;> first | omega | (simp; try omega)
  · have h2 : ¬ (a.vaultLamports < amount) := by omega
    simp only [WithdrawIx.process, systemTransfer, if_neg haddr2, if_neg h, if_neg h2]
    refine ⟨?_, ?_, ?_⟩ <;> first | omega | (simp; try omega)

/-- Witness for C1 at the spec's concrete scenario: owner 5e9, custody 8e9,
floor 890880, Withdraw(3e9) succeeds leaving owner 8e9 and custody 5e9. -/
theorem withdraw_correct_witness :
    (WithdrawIx.process (fun _ => (2, 255)) 890880 3000000000
        ⟨1, 5000000000, 2, 8000000000, 7, 1000000, [3, 4]⟩).2 = none
    ∧ (WithdrawIx.process (fun _ => (2, 255)) 890880 3000000000
        ⟨1, 5000000000, 2, 8000000000, 7, 1000000, [3, 4]⟩).1.userLamports
        = 8000000000
    ∧ (WithdrawIx.process (fun _ => (2, 255)) 890880 3000000000
        ⟨1, 5000000000, 2, 8000000000, 7, 1000000, [3, 4]⟩).1.vaultLamports
        = 5000000000 := by
  have h := withdraw_correct (fun _ => (2, 255)) 890880 3000000000
      ⟨1, 5000000000, 2, 8000000000, 7, 1000000, [3, 4]⟩ rfl (by norm_num)
  have hs := h.1.mpr (by norm_num)
  obtain ⟨hv, hu, -⟩ := h.2.1 hs
  exact ⟨hs, by rw [hu]; try rfl, by rw [hv]; try rfl⟩

/-- C2: on a correctly addressed vault, when the owner balance covers the
amount, Deposit succeeds, the owner balance drops by exactly `amount`, the
custody balance rises by exactly `amount`, and the sum of the two balances
is unchanged. -/
theorem deposit_conservation (derive : Pubkey → Pubkey × Nat) (amount : Nat)
    (a : Accounts)
    (haddr : a.vaultKey = (derive a.stateKey).1)
    (hfunds : amount ≤ a.userLamports) :
    (DepositIx.process derive amount a).2 = none
    ∧ (DepositIx.process derive amount a).1.userLamports
        = a.userLamports - amount
    ∧ (DepositIx.process derive amount a).1.vaultLamports
        = a.vaultLamports + amount
    ∧ (DepositIx.process derive amount a).1.userLamports
        + (DepositIx.process derive amount a).1.vaultLamports
        = a.userLamports + a.vaultLamports := by
  have haddr2 : ¬ (a.vaultKey ≠ (derive a.stateKey).1) := by simp [haddr]
  have h2 : ¬ (a.userLamports < amount) := by omega
  simp only [DepositIx.process, systemTransfer, if_neg haddr2, if_neg h2]
  refine ⟨?_, ?_, ?_, ?_⟩ <;> first | rfl | omega | (simp; try omega)

/-- Witness for C2 at the mollusk test scenario: owner 10e9, custody 890880,
Deposit(5e9) moves exactly 5e9 and conserves the sum. -/
theorem deposit_conservation_witness :
    (DepositIx.process (fun _ => (2, 255)) 5000000000
        ⟨1, 10000000000, 2, 890880, 7, 1000000, [3, 4]⟩).2 = none
    ∧ (DepositIx.process (fun _ => (2, 255)) 5000000000
        ⟨1, 10000000000, 2, 890880, 7, 1000000, [3, 4]⟩).1.userLamports
        = 5000000000
    ∧ (DepositIx.process (fun _ => (2, 255)) 5000000000
        ⟨1, 10000000000, 2, 890880, 7, 1000000, [3, 4]⟩).1.vaultLamports
        = 5000890880 := by
  have h := deposit_conservation (fun _ => (2, 255)) 5000000000
      ⟨1, 10000000000, 2, 890880, 7, 1000000, [3, 4]⟩ rfl (by norm_num)
  obtain ⟨hs, hu, hv, -⟩ := h
  exact ⟨hs, by rw [hu]; try rfl, by rw [hv]; try rfl⟩

/-- C3: Close on an initialized vault (the record account still holds its
storage rent, so its balance is positive) with matching addresses succeeds,
sweeps the whole custody balance (the floor is not preserved) and the
record's rent lamports to the owner, zeroes the record's bytes, and leaves
both the custody and the record account at balance 0. -/
theorem close_terminal (derive : Pubkey → Pubkey × Nat) (a : Accounts)
    (haddr : a.vaultKey = (derive a.stateKey).1)
    (hstate : 0 < a.stateLamports) :
    (CloseIx.process derive a).2 = none
    ∧ (CloseIx.process derive a).1.vaultLamports = 0
    ∧ (CloseIx.process derive a).1.stateLamports = 0
    ∧ (CloseIx.process derive a).1.userLamports
        = a.userLamports + a.vaultLamports + a.stateLamports
    ∧ (CloseIx.process derive a).1.stateData
        = a.stateData.map (fun _ => 0) := by
  have haddr2 : ¬ (a.vaultKey ≠ (derive a.stateKey).1) := by simp [haddr]
  by_cases hv : 0 < a.vaultLamports
  · have h2 : ¬ (a.vaultLamports < a.vaultLamports) := by omega
    simp only [CloseIx.process, systemTransfer, if_neg haddr2, if_pos hv,
      if_neg h2, if_pos hstate]
    refine ⟨?_, ?_, ?_, ?_, ?_⟩ <;> first | rfl | omega | (simp; try omega)
  · simp only [CloseIx.process, systemTransfer, if_neg haddr2, if_neg hv,
      if_pos hstate]
    refine ⟨?_, ?_, ?_, ?_, ?_⟩ <;> first | rfl | omega | (simp; try omega)

/-- Witness for C3 at the mollusk close test scenario: owner 5e9, custody
2e9, record rent 1183200; after Close the owner holds 7001183200 and both
program accounts are empty, the record bytes zeroed. -/
theorem close_terminal_witness :
    (CloseIx.process (fun _ => (2, 255))
        ⟨1, 5000000000, 2, 2000000000, 7, 1183200, [3, 4]⟩).2 = none
    ∧ (CloseIx.process (fun _ => (2, 255))
        ⟨1, 5000000000, 2, 2000000000, 7, 1183200, [3, 4]⟩).1.vaultLamports = 0
    ∧ (CloseIx.process (fun _ => (2, 255))
        ⟨1, 5000000000, 2, 2000000000, 7, 1183200, [3, 4]⟩).1.stateLamports = 0
    ∧ (CloseIx.process (fun _ => (2, 255))
        ⟨1, 5000000000, 2, 2000000000, 7, 1183200, [3, 4]⟩).1.userLamports
        = 7001183200
    ∧ (CloseIx.process (fun _ => (2, 255))
        ⟨1, 5000000000, 2, 2000000000, 7, 1183200, [3, 4]⟩).1.stateData
        = [0, 0] := by
  have h := close_terminal (fun _ => (2, 255))
      ⟨1, 5000000000, 2, 2000000000, 7, 1183200, [3, 4]⟩ rfl (by norm_num)
  obtain ⟨hs, hvl, hsl, hu, hd⟩ := h
  exact ⟨hs, hvl, hsl, by rw [hu]; try rfl, by rw [hd]; try rfl⟩

/-- C4: with matching derived addresses and the owner able to cover the
rent floor, Initialize succeeds, moves exactly the floor from the owner to
the custody address, and writes the record {owner, state_bump, vault_bump}
using the derivation's bump; the record encodes to exactly 34 bytes, the
size the source allocates (`INIT_SPACE`). -/
theorem init_writes_record (derive : Pubkey → Pubkey × Nat)
    (rentExempt stateBump : Nat) (a : Accounts)
    (haddr : a.vaultKey = (derive a.stateKey).1)
    (hfunds : rentExempt ≤ a.userLamports) :
    (InitializeIx.process derive rentExempt stateBump a).2 = none
    ∧ (InitializeIx.process derive rentExempt stateBump a).1.userLamports
        = a.userLamports - rentExempt
    ∧ (InitializeIx.process derive rentExempt stateBump a).1.vaultLamports
        = a.vaultLamports + rentExempt
    ∧ (InitializeIx.process derive rentExempt stateBump a).1.stateData
        = (VaultState.mk a.userKey stateBump (derive a.stateKey).2).toBytes
    ∧ (InitializeIx.process derive rentExempt stateBump a).1.stateData.length
        = 34
    ∧ VaultState.INIT_SPACE = 34 := by
  have haddr2 : ¬ (a.vaultKey ≠ (derive a.stateKey).1) := by simp [haddr]
  have h2 : ¬ (a.userLamports < rentExempt) := by omega
  simp only [InitializeIx.process, systemTransfer, if_neg haddr2, if_neg h2]
  refine ⟨?_, ?_, ?_, ?_, ?_, ?_⟩ <;>
    first
      | rfl
      | omega
      | (simp [VaultState.toBytes, pubkeyBytes, VaultState.INIT_SPACE]; try omega)

/-- Witness for C4: owner 1 with 10e9 lamports initializes; the floor
890880 moves to the custody address and the 34-byte record is written. -/
theorem init_writes_record_witness :
    (InitializeIx.process (fun _ => (2, 255)) 890880 254
        ⟨1, 10000000000, 2, 0, 7, 0, []⟩).2 = none
    ∧ (InitializeIx.process (fun _ => (2, 255)) 890880 254
        ⟨1, 10000000000, 2, 0, 7, 0, []⟩).1.userLamports = 9999109120
    ∧ (InitializeIx.process (fun _ => (2, 255)) 890880 254
        ⟨1, 10000000000, 2, 0, 7, 0, []⟩).1.vaultLamports = 890880
    ∧ (InitializeIx.process (fun _ => (2, 255)) 890880 254
        ⟨1, 10000000000, 2, 0, 7, 0, []⟩).1.stateData
        = (VaultState.mk 1 254 255).toBytes
    ∧ (InitializeIx.process (fun _ => (2, 255)) 890880 254
        ⟨1, 10000000000, 2, 0, 7, 0, []⟩).1.stateData.length = 34 := by
  have h := init_writes_record (fun _ => (2, 255)) 890880 254
      ⟨1, 10000000000, 2, 0, 7, 0, []⟩ rfl (by norm_num)
  obtain ⟨hs, hu, hv, hd, hl, -⟩ := h
  exact ⟨hs, by rw [hu]; try rfl, by rw [hv]; try rfl, hd, hl⟩

/-- C5: in each of Deposit, Withdraw and Close, when the supplied custody
address differs from the re-derived PDA, the operation fails with the
address-mismatch error and the state is exactly the input state — the check
runs before any transfer. -/
theorem address_mismatch_rejected (derive : Pubkey → Pubkey × Nat)
    (rentExempt amount : Nat) (a : Accounts)
    (hne : a.vaultKey ≠ (derive a.stateKey).1) :
    DepositIx.process derive amount a = (a, some VaultError.addressMismatch)
    ∧ WithdrawIx.process derive rentExempt amount a
        = (a, some VaultError.addressMismatch)
    ∧ CloseIx.process derive a = (a, some VaultError.addressMismatch) := by
  refine ⟨?_, ?_, ?_⟩ <;>
    (simp only [DepositIx.process, WithdrawIx.process, CloseIx.process,
      if_pos hne]
     try rfl)

/-- Witness for C5: custody key 2 against derived PDA 3 — all three
operations reject with the address-mismatch error and change nothing. -/
theorem address_mismatch_rejected_witness :
    DepositIx.process (fun _ => (3, 255)) 5 ⟨1, 10, 2, 20, 7, 30, [3, 4]⟩
        = (⟨1, 10, 2, 20, 7, 30, [3, 4]⟩, some VaultError.addressMismatch)
    ∧ WithdrawIx.process (fun _ => (3, 255)) 9 5 ⟨1, 10, 2, 20, 7, 30, [3, 4]⟩
        = (⟨1, 10, 2, 20, 7, 30, [3, 4]⟩, some VaultError.addressMismatch)
    ∧ CloseIx.process (fun _ => (3, 255)) ⟨1, 10, 2, 20, 7, 30, [3, 4]⟩
        = (⟨1, 10, 2, 20, 7, 30, [3, 4]⟩, some VaultError.addressMismatch) :=
  address_mismatch_rejected (fun _ => (3, 255)) 9 5
    ⟨1, 10, 2, 20, 7, 30, [3, 4]⟩ (by decide)

/-- C7: with a correctly derived custody address, a Deposit whose amount
strictly exceeds the owner's funding balance fails with the
insufficient-balance error and leaves the state untouched. -/
theorem deposit_insufficient_rejected (derive : Pubkey → Pubkey × Nat)
    (amount : Nat) (a : Accounts)
    (haddr : a.vaultKey = (derive a.stateKey).1)
    (hlow : a.userLamports < amount) :
    DepositIx.process derive amount a
        = (a, some VaultError.insufficientBalance) := by
  have haddr2 : ¬ (a.vaultKey ≠ (derive a.stateKey).1) := by simp [haddr]
  simp only [DepositIx.process, if_neg haddr2, if_pos hlow]
  try rfl

/-- Witness for C7 at the claim's concrete scenario: owner balance 10e9,
Deposit(15e9) fails with the insufficient-balance error, balances
unchanged. -/
theorem deposit_insufficient_rejected_witness :
    DepositIx.process (fun _ => (2, 255)) 15000000000
        ⟨1, 10000000000, 2, 890880, 7, 1000000, [3, 4]⟩
        = (⟨1, 10000000000, 2, 890880, 7, 1000000, [3, 4]⟩,
           some VaultError.insufficientBalance) :=
  deposit_insufficient_rejected (fun _ => (2, 255)) 15000000000
    ⟨1, 10000000000, 2, 890880, 7, 1000000, [3, 4]⟩ rfl (by norm_num)

/-- C9: when the record account's balance is already 0 before Close, Close
still succeeds but the record's data bytes are left unchanged (not zeroed),
since the lamport sweep of the record and the data clearing sit behind the
same positive-balance check. -/
theorem close_zero_state_keeps_data (derive : Pubkey → Pubkey × Nat)
    (a : Accounts)
    (haddr : a.vaultKey = (derive a.stateKey).1)
    (hzero : a.stateLamports = 0) :
    (CloseIx.process derive a).2 = none
    ∧ (CloseIx.process derive a).1.stateData = a.stateData := by
  have haddr2 : ¬ (a.vaultKey ≠ (derive a.stateKey).1) := by simp [haddr]
  have h3 : ¬ (0 < a.stateLamports) := by omega
  by_cases hv : 0 < a.vaultLamports
  · have h2 : ¬ (a.vaultLamports < a.vaultLamports) := by omega
    simp only [CloseIx.process, systemTransfer, if_neg haddr2, if_pos hv,
      if_neg h2, if_neg h3]
    refine ⟨?_, ?_⟩ <;> first | rfl | trivial
  · simp only [CloseIx.process, systemTransfer, if_neg haddr2, if_neg hv,
      if_neg h3]
    refine ⟨?_, ?_⟩ <;> first | rfl | trivial

/-- Witness for C9: a record account at 0 lamports — Close succeeds and the
record bytes [3, 4] survive unzeroed. -/
theorem close_zero_state_keeps_data_witness :
    (CloseIx.process (fun _ => (2, 255)) ⟨1, 10, 2, 20, 7, 0, [3, 4]⟩).2 = none
    ∧ (CloseIx.process (fun _ => (2, 255))
        ⟨1, 10, 2, 20, 7, 0, [3, 4]⟩).1.stateData = [3, 4] := by
  have h := close_zero_state_keeps_data (fun _ => (2, 255))
      ⟨1, 10, 2, 20, 7, 0, [3, 4]⟩ rfl rfl
  exact ⟨h.1, by rw [h.2]⟩

/-- C10: when the custody balance sits strictly below the rent floor, the
saturating subtraction makes the available amount 0 — no underflow — so
every positive Withdraw fails with the insufficient-balance error and
leaves the state untouched, while Withdraw(0) succeeds. -/
theorem withdraw_below_floor (derive : Pubkey → Pubkey × Nat)
    (rentExempt amount : Nat) (a : Accounts)
    (haddr : a.vaultKey = (derive a.stateKey).1)
    (hbelow : a.vaultLamports < rentExempt) :
    a.vaultLamports - rentExempt = 0
    ∧ (0 < amount →
        WithdrawIx.process derive rentExempt amount a
          = (a, some VaultError.insufficientBalance))
    ∧ (WithdrawIx.process derive rentExempt 0 a).2 = none := by
  have haddr2 : ¬ (a.vaultKey ≠ (derive a.stateKey).1) := by simp [haddr]
  refine ⟨by omega, fun hpos => ?_, ?_⟩
  · have h : a.vaultLamports - rentExempt < amount := by omega
    simp only [WithdrawIx.process, if_neg haddr2, if_pos h]
    try rfl
  · have h : ¬ (a.vaultLamports - rentExempt < 0) := by omega
    have h2 : ¬ (a.vaultLamports < 0) := by omega
    simp only [WithdrawIx.process, systemTransfer, if_neg haddr2, if_neg h,
      if_neg h2]
    try rfl

/-- Witness for C10: custody at 100 lamports under a floor of 890880 —
available is 0, Withdraw(5) fails with the insufficient-balance error, and
Withdraw(0) succeeds. -/
theorem withdraw_below_floor_witness :
    (100 : Nat) - 890880 = 0
    ∧ (0 < 5 →
        WithdrawIx.process (fun _ => (2, 255)) 890880 5
            ⟨1, 50, 2, 100, 7, 30, [3, 4]⟩
          = (⟨1, 50, 2, 100, 7, 30, [3, 4]⟩,
             some VaultError.insufficientBalance))
    ∧ (WithdrawIx.process (fun _ => (2, 255)) 890880 0
        ⟨1, 50, 2, 100, 7, 30, [3, 4]⟩).2 = none :=
  withdraw_below_floor (fun _ => (2, 255)) 890880 5
    ⟨1, 50, 2, 100, 7, 30, [3, 4]⟩ rfl (by norm_num)

/-- C6: for every persisted record and claimed owner, `validate_account`
fails with the authorization error exactly when the stored owner differs
from the claimed owner, and succeeds exactly when they are equal. -/
theorem validate_owner_correct (rec : VaultState) (claimed : Pubkey) :
    (rec.validate_account claimed = .error .authorization ↔ rec.owner ≠ claimed)
    ∧ (rec.validate_account claimed = .ok () ↔ rec.owner = claimed) := by
  unfold VaultState.validate_account
  by_cases h : rec.owner = claimed <;> simp [h]

/-- C8: Deposit and Withdraw never touch the persisted record bytes — on
every outcome, success or failure, the state account's data is unchanged. -/
theorem record_frame (derive : Pubkey → Pubkey × Nat)
    (rentExempt amount : Nat) (a : Accounts) :
    (DepositIx.process derive amount a).1.stateData = a.stateData
    ∧ (WithdrawIx.process derive rentExempt amount a).1.stateData = a.stateData := by
  constructor
  · unfold DepositIx.process systemTransfer
    split
    · rfl
    · split
      · rfl
      · split
        · rfl
        · rfl
  · unfold WithdrawIx.process systemTransfer
    split
    · rfl
    · dsimp only
      split
      · rfl
      · split
        · rfl
        · rfl

end StarframeVault
